import Mathlib

/-
Shallow embedding of `s3hive/bucket.py` (the `Bucket` facade over the boto3 S3
client) and verification of its specification.

Modelling conventions:
- Python exceptions are modelled by `Except PyError`.  `Bucket._client_error`
  raises `Exception(e.response)`; that generic exception is the constructor
  `PyError.remoteService` carrying the original `ClientError` response payload.
  A Python `KeyError` from a missing dictionary key is `PyError.keyError`, and
  a Python `UnboundLocalError` (a local variable referenced before assignment)
  is `PyError.unboundLocal`.
- A Python method that can fall off its end returns `Option` inside `Except`:
  `Except.ok none` is Python's implicit `return None`.
- The boto3 client is an explicit record `SDK` of one function per remote
  operation; each function maps the request the facade builds to either a
  success response or a `ClientError`.  The facade methods take the `SDK` as a
  parameter, mirroring `self._get_client()`.
- The local filesystem seen by `upload`'s `os.path.getsize` is a partial map
  from path to size (`String → Option Nat`); `none` means the file is missing,
  i.e. `os.path.getsize` raises `FileNotFoundError` (which line 176-177 of the
  source swallows with `pass`).
- `upload` and `download` additionally record, next to the Python return value,
  which SDK transfer call they actually issued (and, for `download`, the set of
  local directories after the `os.makedirs` step), so that theorems can speak
  about the request parameters the facade sends and about the destination path.
  The control flow of the `result` component is a line-by-line translation of
  the source.
- The tqdm progress bar is display-only console output and is not modelled,
  except for the one semantic effect it has: evaluating `tqdm(total=file_size)`
  reads the local variable `file_size`, which raises `UnboundLocalError`
  whenever the source never assigned it.
-/

namespace S3Hive

/-- The structured response payload carried by a botocore `ClientError`
(`e.response`).  Only its identity matters to the wrapper, which passes it
through verbatim; we give it representative fields. -/
structure ErrorResponse where
  code : String
  message : String
deriving Repr, DecidableEq

/-- A botocore `ClientError`: the exception raised by the SDK on a
service-side error, carrying its structured response payload. -/
structure ClientError where
  response : ErrorResponse
deriving Repr, DecidableEq

/-- The Python exceptions that can escape a facade method. -/
inductive PyError where
  /-- The single generic `Exception(e.response)` raised by
  `Bucket._client_error`, wrapping the `ClientError` response payload. -/
  | remoteService (payload : ErrorResponse)
  /-- A `KeyError` from accessing a missing dictionary key. -/
  | keyError (key : String)
  /-- An `UnboundLocalError`: a local variable referenced before assignment. -/
  | unboundLocal (var : String)
deriving Repr, DecidableEq

instance {ε α : Type} [DecidableEq ε] [DecidableEq α] :
    DecidableEq (Except ε α) := fun a b =>
  match a, b with
  | .ok x, .ok y =>
      match decEq x y with
      | isTrue h => isTrue (congrArg Except.ok h)
      | isFalse h => isFalse (fun hc => h (Except.ok.inj hc))
  | .ok _, .error _ => isFalse (fun hc => Except.noConfusion hc)
  | .error _, .ok _ => isFalse (fun hc => Except.noConfusion hc)
  | .error x, .error y =>
      match decEq x y with
      | isTrue h => isTrue (congrArg Except.error h)
      | isFalse h => isFalse (fun hc => h (Except.error.inj hc))

/-- The `ResponseMetadata` dictionary of a boto3 response; the wrapper reads
`HTTPStatusCode` and returns the whole mapping from `delete`. -/
structure ResponseMetadata where
  httpStatusCode : Nat
  requestId : String
deriving Repr, DecidableEq

/-- Request sent by `create_bucket` (lines 71-75): bucket name, the
`CreateBucketConfiguration` location constraint (`self.region`), and the ACL. -/
structure CreateBucketRequest where
  bucket : String
  locationConstraint : String
  acl : String
deriving Repr, DecidableEq

/-- Response of the SDK `create_bucket` call; the wrapper only reads
`ResponseMetadata.HTTPStatusCode`. -/
structure CreateBucketResponse where
  responseMetadata : ResponseMetadata
deriving Repr, DecidableEq

/-- Request sent by `delete_bucket` (line 92). -/
structure DeleteBucketRequest where
  bucket : String
deriving Repr, DecidableEq

/-- Response of the SDK `delete_bucket` call. -/
structure DeleteBucketResponse where
  responseMetadata : ResponseMetadata
deriving Repr, DecidableEq

/-- One entry of the `Buckets` list in a `list_buckets` response; the wrapper
projects the `Name` field. -/
structure BucketDescriptor where
  name : String
  creationDate : String
deriving Repr, DecidableEq

/-- Response of the SDK `list_buckets` call; the `Buckets` key is always
present (possibly an empty list). -/
structure ListBucketsResponse where
  buckets : List BucketDescriptor
deriving Repr, DecidableEq

/-- Request sent by `list_objects` (line 126). -/
structure ListObjectsV2Request where
  bucket : String
deriving Repr, DecidableEq

/-- One entry of the `Contents` list in a `list_objects_v2` response; the
wrapper projects the `Key` field, which is always present. -/
structure S3Object where
  key : String
  size : Nat
deriving Repr, DecidableEq

/-- Response of the SDK `list_objects_v2` call.  The `Contents` key is absent
(`none`) exactly when the bucket holds zero objects, in which case the
subscript `response["Contents"]` raises `KeyError`. -/
structure ListObjectsV2Response where
  contents : Option (List S3Object)
deriving Repr, DecidableEq

/-- Parameters of the `generate_presigned_url` call (lines 149-152). -/
structure PresignedUrlParams where
  clientMethod : String
  bucket : String
  key : String
  expiresIn : Nat
deriving Repr, DecidableEq

/-- Positional and keyword arguments of the SDK `upload_file` call
(lines 190-196).  The tqdm `Callback` closure is display-only and not
modelled. -/
structure UploadFileArgs where
  filename : String
  bucket : String
  key : String
  extraArgs : Option (List (String × String))
deriving Repr, DecidableEq

/-- Request sent by `download`'s `head_object` call (lines 219-223). -/
structure HeadObjectRequest where
  bucket : String
  key : String
  expectedBucketOwner : String
deriving Repr, DecidableEq

/-- Response of the SDK `head_object` call; the wrapper reads `ContentLength`
(always present) to size the progress bar. -/
structure HeadObjectResponse where
  contentLength : Nat
deriving Repr, DecidableEq

/-- Arguments of the SDK `download_file` call (lines 236-243); the tqdm
`Callback` closure is not modelled. -/
structure DownloadFileArgs where
  bucket : String
  key : String
  filename : String
deriving Repr, DecidableEq

/-- Request sent by `delete` (line 261). -/
structure DeleteObjectRequest where
  bucket : String
  key : String
deriving Repr, DecidableEq

/-- Response of the SDK `delete_object` call: the optional `DeleteMarker` key
(present on versioned buckets) and the `ResponseMetadata` mapping. -/
structure DeleteObjectResponse where
  deleteMarker : Option Bool
  responseMetadata : ResponseMetadata
deriving Repr, DecidableEq

/-- The boto3 S3 client obtained by `Bucket._get_client()`: one function per
SDK operation the wrapper invokes, mapping the request the wrapper builds to a
success response or a raised `ClientError`.  `upload_file` and `download_file`
return `None` (`Unit`) on success, matching boto3. -/
structure SDK where
  create_bucket : CreateBucketRequest → Except ClientError CreateBucketResponse
  delete_bucket : DeleteBucketRequest → Except ClientError DeleteBucketResponse
  list_buckets : Unit → Except ClientError ListBucketsResponse
  list_objects_v2 : ListObjectsV2Request → Except ClientError ListObjectsV2Response
  generate_presigned_url : PresignedUrlParams → Except ClientError String
  upload_file : UploadFileArgs → Except ClientError Unit
  head_object : HeadObjectRequest → Except ClientError HeadObjectResponse
  download_file : DownloadFileArgs → Except ClientError Unit
  delete_object : DeleteObjectRequest → Except ClientError DeleteObjectResponse

/-- The facade's immutable configuration (`Bucket.__init__`, lines 18-36). -/
structure Bucket where
  endpoint_url : String
  region : String
  aws_access_key_id : String
  aws_secret_access_key : String
deriving Repr, DecidableEq

/-- Result of `list_buckets`: the full descriptor list, or only the names when
`names_only` is set (lines 110-112). -/
inductive ListBucketsResult where
  | descriptors (bs : List BucketDescriptor)
  | names (ns : List String)
deriving Repr, DecidableEq

/-- Result of `list_objects`: the full object list, or only the keys when
`keys_only` is set (lines 128-131). -/
inductive ListObjectsResult where
  | objects (obs : List S3Object)
  | keys (ks : List String)
deriving Repr, DecidableEq

/-- Lines 52-59: `Bucket._client_error` re-raises any `ClientError` as the
single generic `Exception(e.response)`. -/
def Bucket._client_error {α : Type} (_self : Bucket) (e : ClientError) :
    Except PyError α :=
  .error (.remoteService e.response)

/-- Lines 61-80: `Bucket.create_bucket`.  Returns `True` when the response
status is 200; on any other success status Python falls off the end of the
method and returns `None`; a `ClientError` goes through `_client_error`. -/
def Bucket.create_bucket (self : Bucket) (sdk : SDK) (bucket acl : String) :
    Except PyError (Option Bool) :=
  match sdk.create_bucket
      { bucket := bucket, locationConstraint := self.region, acl := acl } with
  | .ok response =>
      if response.responseMetadata.httpStatusCode = 200 then .ok (some true)
      else .ok none
  | .error e => self._client_error e

/-- Lines 82-97: `Bucket.delete_bucket`.  Returns `True` when the response
status is 204, otherwise falls through to `None`; `ClientError` goes through
`_client_error`. -/
def Bucket.delete_bucket (self : Bucket) (sdk : SDK) (bucket : String) :
    Except PyError (Option Bool) :=
  match sdk.delete_bucket { bucket := bucket } with
  | .ok reponse =>
      if reponse.responseMetadata.httpStatusCode = 204 then .ok (some true)
      else .ok none
  | .error e => self._client_error e

/-- Lines 99-115: `Bucket.list_buckets`.  Returns the `Buckets` list, or the
`Name` projection when `names_only` is set. -/
def Bucket.list_buckets (self : Bucket) (sdk : SDK) (names_only : Bool) :
    Except PyError ListBucketsResult :=
  match sdk.list_buckets () with
  | .ok response =>
      if !names_only then .ok (.descriptors response.buckets)
      else .ok (.names (response.buckets.map (fun b => b.name)))
  | .error e => self._client_error e

/-- Lines 117-134: `Bucket.list_objects`.  Both branches subscript
`response["Contents"]`, which raises `KeyError` when the key is absent (empty
bucket); that `KeyError` is not a `ClientError` and escapes the handler. -/
def Bucket.list_objects (self : Bucket) (sdk : SDK) (bucket : String)
    (keys_only : Bool) : Except PyError ListObjectsResult :=
  match sdk.list_objects_v2 { bucket := bucket } with
  | .ok response =>
      if !keys_only then
        match response.contents with
        | none => .error (.keyError "Contents")
        | some contents => .ok (.objects contents)
      else
        match response.contents with
        | none => .error (.keyError "Contents")
        | some contents => .ok (.keys (contents.map (fun o => o.key)))
  | .error e => self._client_error e

/-- Lines 136-154: `Bucket.create_presigned_url`.  Returns the generated URL;
`ClientError` goes through `_client_error`. -/
def Bucket.create_presigned_url (self : Bucket) (sdk : SDK)
    (bucket key : String) (expiration : Nat) : Except PyError String :=
  match sdk.generate_presigned_url
      { clientMethod := "get_object", bucket := bucket, key := key,
        expiresIn := expiration } with
  | .ok url => .ok url
  | .error e => self._client_error e

/-- Python `os.path.basename` for POSIX paths: the suffix after the last
slash (empty when the path ends in a slash). -/
def basename (p : String) : String :=
  String.mk (p.data.foldl (fun acc c => if c = '/' then [] else acc ++ [c]) [])

/-- Python `os.path.join` for POSIX paths, two-argument form: an absolute
second component replaces the first; otherwise the components are joined,
inserting a slash unless the first is empty or already ends in one. -/
def os_path_join (a b : String) : String :=
  if b.data.head? = some '/' then b
  else if a = "" ∨ a.data.getLast? = some '/' then a ++ b
  else a ++ "/" ++ b

/-- Outcome of `Bucket.upload`: the Python return value (or escaped
exception), plus a record of the `upload_file` SDK invocation when one was
issued (`none` when the method failed before reaching the transfer). -/
structure UploadOutcome where
  result : Except PyError (Option Bool)
  sdk_call : Option UploadFileArgs
deriving Repr, DecidableEq

/-- Lines 156-202: `Bucket.upload`.

Key resolution (lines 169-170): if `key` is `None` it becomes
`os.path.basename(file_name)`.

Size lookup (lines 172-177): the local variable `file_size` is assigned only
when `filesize is None` and `os.path.getsize` succeeds; a `FileNotFoundError`
is swallowed by `pass`, and when `filesize` is supplied the whole block is
skipped — in both of those cases `file_size` is never assigned, so evaluating
`tqdm(total=file_size, ...)` on line 181-182 raises `UnboundLocalError`
before `upload_file` is called, and `except ClientError` does not catch it.

Transfer (lines 180-202): `upload_file` returns `None` on success, so the
`response is None` check yields `True`; a `ClientError` goes through
`_client_error`. -/
def Bucket.upload (self : Bucket) (sdk : SDK) (fs : String → Option Nat)
    (bucket file_name : String) (key : Option String)
    (extra_args : Option (List (String × String))) (filesize : Option Nat) :
    UploadOutcome :=
  let key := match key with
    | none => basename file_name
    | some k => k
  let file_size : Option Nat := match filesize with
    | none => fs file_name
    | some _ => none
  match file_size with
  | none =>
      { result := .error (.unboundLocal "file_size"), sdk_call := none }
  | some _ =>
      let args : UploadFileArgs :=
        { filename := file_name, bucket := bucket, key := key,
          extraArgs := extra_args }
      match sdk.upload_file args with
      | .ok _ => { result := .ok (some true), sdk_call := some args }
      | .error e => { result := self._client_error e, sdk_call := some args }

/-- Line 8: `ROOT_DIR`, the default download directory.  Its concrete value is
the installation path of the package, irrelevant to every property proved
here. -/
def ROOT_DIR : String := "/s3hive"

/-- Outcome of `Bucket.download`: the Python return value (or escaped
exception), the list of local directories after the `os.makedirs` step, and a
record of the `head_object` and `download_file` SDK invocations that were
issued. -/
structure DownloadOutcome where
  result : Except PyError (Option Bool)
  dirs : List String
  head_call : Option HeadObjectRequest
  download_call : Option DownloadFileArgs
deriving Repr, DecidableEq

/-- Lines 204-249: `Bucket.download`.

Lines 215-216: the destination directory is created when absent.
Lines 219-223: `head_object` is called with `ExpectedBucketOwner` set to
`self.aws_access_key_id`; its `ContentLength` only sizes the tqdm display.
Line 227: the destination file is `os.path.join(local_dir,
os.path.basename(key))`.  Lines 236-246: `download_file` returns `None` on
success, so the `response is None` check yields `True`; any `ClientError`
goes through `_client_error`. -/
def Bucket.download (self : Bucket) (sdk : SDK) (dirs : List String)
    (bucket key local_dir : String) : DownloadOutcome :=
  let dirs := if local_dir ∈ dirs then dirs else dirs ++ [local_dir]
  let head_req : HeadObjectRequest :=
    { bucket := bucket, key := key,
      expectedBucketOwner := self.aws_access_key_id }
  match sdk.head_object head_req with
  | .error e =>
      { result := self._client_error e, dirs := dirs,
        head_call := some head_req, download_call := none }
  | .ok _response =>
      let local_file := os_path_join local_dir (basename key)
      let dl_args : DownloadFileArgs :=
        { bucket := bucket, key := key, filename := local_file }
      match sdk.download_file dl_args with
      | .ok _ =>
          { result := .ok (some true), dirs := dirs,
            head_call := some head_req, download_call := some dl_args }
      | .error e =>
          { result := self._client_error e, dirs := dirs,
            head_call := some head_req, download_call := some dl_args }

/-- Lines 251-268: `Bucket.delete`.  On status 204 returns the pair of the
delete marker (`response["DeleteMarker"] if "DeleteMarker" in response else
False`) and the `ResponseMetadata` mapping; on any other success status falls
through to `None`; `ClientError` goes through `_client_error`. -/
def Bucket.delete (self : Bucket) (sdk : SDK) (bucket key : String) :
    Except PyError (Option (Bool × ResponseMetadata)) :=
  match sdk.delete_object { bucket := bucket, key := key } with
  | .ok response =>
      if response.responseMetadata.httpStatusCode = 204 then
        let marker := match response.deleteMarker with
          | some b => b
          | none => false
        .ok (some (marker, response.responseMetadata))
      else .ok none
  | .error e => self._client_error e

/-! Service models and concrete fixtures used by the theorems below. -/

/-- A service on which every SDK call fails with the `ClientError` `e`. -/
def errSDK (e : ClientError) : SDK where
  create_bucket := fun _ => .error e
  delete_bucket := fun _ => .error e
  list_buckets := fun _ => .error e
  list_objects_v2 := fun _ => .error e
  generate_presigned_url := fun _ => .error e
  upload_file := fun _ => .error e
  head_object := fun _ => .error e
  download_file := fun _ => .error e
  delete_object := fun _ => .error e

/-- `base`, with the `head_object` call overridden to succeed with `resp`
(used to reach `download_file` inside `download`). -/
def headOkSDK (base : SDK) (resp : HeadObjectResponse) : SDK :=
  { base with head_object := fun _ => .ok resp }

/-- A service that enforces the `ExpectedBucketOwner` condition on
`head_object`: the request succeeds with `resp` when its
`expectedBucketOwner` parameter equals the bucket-owning account id `owner`,
and fails with the `ClientError` `e` otherwise. -/
def enforcingOwnerSDK (base : SDK) (owner : String) (e : ClientError)
    (resp : HeadObjectResponse) : SDK :=
  { base with head_object := fun r =>
      if r.expectedBucketOwner = owner then .ok resp else .error e }

/-- A concrete facade configuration. -/
def self0 : Bucket where
  endpoint_url := "http://localhost:9000"
  region := "us-east-1"
  aws_access_key_id := "AKIDEXAMPLE"
  aws_secret_access_key := "SECRETKEY"

/-- A concrete `ClientError` payload. -/
def err0 : ClientError where
  response := { code := "AccessDenied", message := "Access Denied" }

/-- Concrete response metadata with HTTP status 200. -/
def meta200 : ResponseMetadata where
  httpStatusCode := 200
  requestId := "REQ200"

/-- Concrete response metadata with HTTP status 204. -/
def meta204 : ResponseMetadata where
  httpStatusCode := 204
  requestId := "REQ204"

/-- A concrete `head_object` response. -/
def headResp0 : HeadObjectResponse where
  contentLength := 1048576

/-- A service on which every SDK call succeeds with fixed concrete
responses. -/
def sdkOk : SDK where
  create_bucket := fun _ => .ok { responseMetadata := meta200 }
  delete_bucket := fun _ => .ok { responseMetadata := meta204 }
  list_buckets := fun _ =>
    .ok { buckets := [{ name := "bucket1", creationDate := "2023-01-01" },
                      { name := "bucket2", creationDate := "2023-02-02" }] }
  list_objects_v2 := fun _ =>
    .ok { contents := some [{ key := "a.yml", size := 5 }] }
  generate_presigned_url := fun _ => .ok "https://example.com/signed/a.yml"
  upload_file := fun _ => .ok ()
  head_object := fun _ => .ok headResp0
  download_file := fun _ => .ok ()
  delete_object := fun _ => .ok { deleteMarker := none, responseMetadata := meta204 }

/-- Claim C1: for every facade operation (`create_bucket`, `delete_bucket`,
`list_buckets`, `list_objects`, `create_presigned_url`, `upload`, `download`,
`delete`), whenever the underlying SDK call raises a `ClientError`, the
operation catches it and raises exactly the one generic error wrapping the
original error's response payload, with no differentiation by error kind.
(For `upload` the transfer call is reached only when the size lookup
succeeded, hence the hypothesis on `fs`; for `download` both SDK calls are
covered: `head_object` failing, and `download_file` failing after
`head_object` succeeded.) -/
theorem C1_uniform_client_error_wrapping
    (self : Bucket) (e : ClientError) (bucket acl ufile okey ldir : String)
    (key : Option String) (extra : Option (List (String × String)))
    (fs : String → Option Nat) (sz expiration : Nat)
    (names_only keys_only : Bool) (dirs : List String)
    (resp : HeadObjectResponse)
    (hfs : fs ufile = some sz) :
    self.create_bucket (errSDK e) bucket acl
        = .error (.remoteService e.response) ∧
    self.delete_bucket (errSDK e) bucket
        = .error (.remoteService e.response) ∧
    self.list_buckets (errSDK e) names_only
        = .error (.remoteService e.response) ∧
    self.list_objects (errSDK e) bucket keys_only
        = .error (.remoteService e.response) ∧
    self.create_presigned_url (errSDK e) bucket okey expiration
        = .error (.remoteService e.response) ∧
    (self.upload (errSDK e) fs bucket ufile key extra none).result
        = .error (.remoteService e.response) ∧
    (self.download (errSDK e) dirs bucket okey ldir).result
        = .error (.remoteService e.response) ∧
    (self.download (headOkSDK (errSDK e) resp) dirs bucket okey ldir).result
        = .error (.remoteService e.response) ∧
    self.delete (errSDK e) bucket okey
        = .error (.remoteService e.response) := by
  refine ⟨rfl, rfl, rfl, rfl, rfl, ?_, rfl, rfl, rfl⟩
  simp [Bucket.upload, hfs, errSDK, Bucket._client_error]

/-- Witness for C1 at concrete inputs. -/
theorem C1_uniform_client_error_wrapping_witness :
    self0.create_bucket (errSDK err0) "bucket1" "private"
        = .error (.remoteService err0.response) ∧
    self0.delete_bucket (errSDK err0) "bucket1"
        = .error (.remoteService err0.response) ∧
    self0.list_buckets (errSDK err0) true
        = .error (.remoteService err0.response) ∧
    self0.list_objects (errSDK err0) "bucket1" false
        = .error (.remoteService err0.response) ∧
    self0.create_presigned_url (errSDK err0) "bucket1" "a.yml" 3600
        = .error (.remoteService err0.response) ∧
    (self0.upload (errSDK err0) (fun _ => some 5) "bucket1" "a.yml" none none
        none).result = .error (.remoteService err0.response) ∧
    (self0.download (errSDK err0) [] "bucket1" "a.yml" "/tmp/out").result
        = .error (.remoteService err0.response) ∧
    (self0.download (headOkSDK (errSDK err0) headResp0) [] "bucket1" "a.yml"
        "/tmp/out").result = .error (.remoteService err0.response) ∧
    self0.delete (errSDK err0) "bucket1" "a.yml"
        = .error (.remoteService err0.response) :=
  C1_uniform_client_error_wrapping self0 err0 "bucket1" "private" "a.yml"
    "a.yml" "/tmp/out" none none (fun _ => some 5) 5 3600 true false []
    headResp0 rfl

/-- `sdkOk`, with `create_bucket` overridden to succeed with HTTP status 204
instead of 200. -/
def sdkCreate204 : SDK :=
  { sdkOk with create_bucket := fun _ => .ok { responseMetadata := meta204 } }

/-- Counterexample to claim C2 as stated: when the service answers
`create_bucket` with a success response whose HTTP status is 204 (not 200),
the method neither returns `True` nor raises a `RemoteServiceError`; it falls
off the end and returns Python `None`. -/
theorem C2_create_bucket_counterexample :
    self0.create_bucket sdkCreate204 "bucket1" "private" = .ok none := rfl

/-- Claim C2 (amended): for all valid `(bucket, acl)` pairs, `create_bucket`
returns `True` iff the service responds with HTTP status 200; a service
`ClientError` causes a raised `RemoteServiceError` wrapping the error payload;
a success response with any status other than 200 makes `create_bucket`
return `None` without raising. -/
theorem C2_create_bucket_amended (self : Bucket) (sdk : SDK)
    (bucket acl : String) (resp : CreateBucketResponse) (e : ClientError) :
    (sdk.create_bucket
        { bucket := bucket, locationConstraint := self.region, acl := acl }
        = .ok resp →
      ((self.create_bucket sdk bucket acl = .ok (some true) ↔
          resp.responseMetadata.httpStatusCode = 200) ∧
        (resp.responseMetadata.httpStatusCode ≠ 200 →
          self.create_bucket sdk bucket acl = .ok none))) ∧
    (sdk.create_bucket
        { bucket := bucket, locationConstraint := self.region, acl := acl }
        = .error e →
      self.create_bucket sdk bucket acl
        = .error (.remoteService e.response)) := by
  constructor
  · intro h
    constructor
    · unfold Bucket.create_bucket
      rw [h]
      by_cases hs : resp.responseMetadata.httpStatusCode = 200 <;> simp [hs]
    · intro hs
      unfold Bucket.create_bucket
      rw [h]
      simp [hs]
  · intro h
    unfold Bucket.create_bucket
    rw [h]
    rfl

/-- Witness for the amended C2 at concrete inputs: a status-200 service
(`sdkOk`) and a failing service (`errSDK err0`). -/
theorem C2_create_bucket_amended_witness :
    ((self0.create_bucket sdkOk "bucket1" "private" = .ok (some true) ↔
        ({ responseMetadata := meta200 } :
            CreateBucketResponse).responseMetadata.httpStatusCode = 200) ∧
      (({ responseMetadata := meta200 } :
            CreateBucketResponse).responseMetadata.httpStatusCode ≠ 200 →
        self0.create_bucket sdkOk "bucket1" "private" = .ok none)) ∧
    self0.create_bucket (errSDK err0) "bucket1" "private"
      = .error (.remoteService err0.response) :=
  ⟨(C2_create_bucket_amended self0 sdkOk "bucket1" "private"
      { responseMetadata := meta200 } err0).1 rfl,
   (C2_create_bucket_amended self0 (errSDK err0) "bucket1" "private"
      { responseMetadata := meta200 } err0).2 rfl⟩

/-- Claim C3: when `list_objects` is called on a bucket with zero objects the
service response lacks the `Contents` field, and the subscript raises a
`KeyError` that the `except ClientError` handler does not catch: the caller
receives the raw field-access error, never a `RemoteServiceError`. -/
theorem C3_list_objects_empty_bucket (self : Bucket) (sdk : SDK)
    (bucket : String) (keys_only : Bool)
    (h : sdk.list_objects_v2 { bucket := bucket } = .ok { contents := none }) :
    self.list_objects sdk bucket keys_only = .error (.keyError "Contents") ∧
    ∀ p : ErrorResponse,
      self.list_objects sdk bucket keys_only ≠ .error (.remoteService p) := by
  have h1 : self.list_objects sdk bucket keys_only
      = .error (.keyError "Contents") := by
    unfold Bucket.list_objects
    rw [h]
    cases keys_only <;> rfl
  refine ⟨h1, fun p => ?_⟩
  rw [h1]
  simp

/-- `sdkOk`, with `list_objects_v2` overridden to answer as on an empty
bucket: a success response without the `Contents` key. -/
def sdkNoContents : SDK :=
  { sdkOk with list_objects_v2 := fun _ => .ok { contents := none } }

/-- Witness for C3 at concrete inputs. -/
theorem C3_list_objects_empty_bucket_witness :
    self0.list_objects sdkNoContents "bucket1" true
      = .error (.keyError "Contents") :=
  (C3_list_objects_empty_bucket self0 sdkNoContents "bucket1" true rfl).1

/-- A local filesystem on which every `os.path.getsize` raises
`FileNotFoundError`. -/
def fsMissing : String → Option Nat := fun _ => none

/-- Counterexample to claim C4 as stated: with `filesize` unset and the source
file missing, `upload` does NOT continue to the transfer step.  At this
concrete input (a service on which every call would succeed) no `upload_file`
SDK call is issued, and the method dies with an `UnboundLocalError` on the
never-assigned local `file_size` when the progress bar is built. -/
theorem C4_upload_missing_file_counterexample :
    self0.upload sdkOk fsMissing "bucket1" "a.yml" none none none =
      { result := .error (.unboundLocal "file_size"), sdk_call := none } := rfl

/-- Claim C4 (amended): when `upload` is called with `filesize` unset and the
local source file does not exist, the `FileNotFoundError` from the size
lookup is swallowed (`pass`), leaving the local `file_size` unassigned;
`upload` then fails with an `UnboundLocalError` when the progress-bar
construction references `file_size`, before any transfer is attempted — the
transfer step is never reached. -/
theorem C4_upload_missing_file_amended (self : Bucket) (sdk : SDK)
    (fs : String → Option Nat) (bucket file_name : String)
    (key : Option String) (extra : Option (List (String × String)))
    (h : fs file_name = none) :
    self.upload sdk fs bucket file_name key extra none =
      { result := .error (.unboundLocal "file_size"), sdk_call := none } := by
  unfold Bucket.upload
  simp [h]

/-- Witness for the amended C4 at concrete inputs. -/
theorem C4_upload_missing_file_amended_witness :
    self0.upload (errSDK err0) fsMissing "bucket2" "b.yml" (some "k") none
        none =
      { result := .error (.unboundLocal "file_size"), sdk_call := none } :=
  C4_upload_missing_file_amended self0 (errSDK err0) fsMissing "bucket2"
    "b.yml" (some "k") none rfl

/-- Claim C5: whenever `upload` is called with the `key` argument unset, the
`upload_file` SDK call it issues carries exactly the basename of the local
file path as the object key (and the other arguments unchanged). -/
theorem C5_upload_default_key (self : Bucket) (sdk : SDK)
    (fs : String → Option Nat) (bucket file_name : String)
    (extra : Option (List (String × String))) (sz : Nat)
    (h : fs file_name = some sz) :
    (self.upload sdk fs bucket file_name none extra none).sdk_call =
      some { filename := file_name, bucket := bucket,
             key := basename file_name, extraArgs := extra } := by
  unfold Bucket.upload
  simp only [h]
  cases hu : sdk.upload_file ⟨file_name, bucket, basename file_name, extra⟩ <;>
    simp [hu]

/-- Witness for C5: `upload("bucket1", "a.yml")` with `key` omitted passes the
object key `"a.yml" = basename "a.yml"` to the SDK transfer call. -/
theorem C5_upload_default_key_witness :
    (self0.upload sdkOk (fun _ => some 5) "bucket1" "a.yml" none none
        none).sdk_call =
      some { filename := "a.yml", bucket := "bucket1", key := "a.yml",
             extraArgs := none } :=
  (C5_upload_default_key self0 sdkOk (fun _ => some 5) "bucket1" "a.yml"
      none 5 rfl).trans (by decide)

/-- Claim C6: for every `download(bucket, key, local_dir)` call on which the
service calls succeed, the destination directory is created when absent, the
object is streamed to `local_dir` joined with `basename key`, and `download`
returns `True` on completion. -/
theorem C6_download_spec (self : Bucket) (sdk : SDK) (dirs : List String)
    (bucket key local_dir : String) (resp : HeadObjectResponse)
    (hh : sdk.head_object ⟨bucket, key, self.aws_access_key_id⟩ = .ok resp)
    (hd : sdk.download_file
        ⟨bucket, key, os_path_join local_dir (basename key)⟩ = .ok ()) :
    self.download sdk dirs bucket key local_dir =
      { result := .ok (some true),
        dirs := if local_dir ∈ dirs then dirs else dirs ++ [local_dir],
        head_call := some ⟨bucket, key, self.aws_access_key_id⟩,
        download_call :=
          some ⟨bucket, key, os_path_join local_dir (basename key)⟩ } ∧
    local_dir ∈ (self.download sdk dirs bucket key local_dir).dirs := by
  have h1 : self.download sdk dirs bucket key local_dir =
      { result := .ok (some true),
        dirs := if local_dir ∈ dirs then dirs else dirs ++ [local_dir],
        head_call := some ⟨bucket, key, self.aws_access_key_id⟩,
        download_call :=
          some ⟨bucket, key, os_path_join local_dir (basename key)⟩ } := by
    unfold Bucket.download
    simp only [hh, hd]
  refine ⟨h1, ?_⟩
  rw [h1]
  by_cases hm : local_dir ∈ dirs <;> simp [hm]

/-- Witness for C6: `download("bucket1", "a.yml", "/tmp/out")` on a fresh
filesystem creates `/tmp/out` and streams the object to `/tmp/out/a.yml`,
returning `True`. -/
theorem C6_download_spec_witness :
    self0.download sdkOk [] "bucket1" "a.yml" "/tmp/out" =
      { result := .ok (some true),
        dirs := ["/tmp/out"],
        head_call := some ⟨"bucket1", "a.yml", "AKIDEXAMPLE"⟩,
        download_call := some ⟨"bucket1", "a.yml", "/tmp/out/a.yml"⟩ } ∧
    "/tmp/out" ∈ (self0.download sdkOk [] "bucket1" "a.yml" "/tmp/out").dirs := by
  have h := C6_download_spec self0 sdkOk [] "bucket1" "a.yml" "/tmp/out"
    headResp0 rfl rfl
  exact ⟨h.1.trans (by decide), h.2⟩

/-- Claim C7: for every `delete(bucket, key)` call whose service response has
HTTP status 204, `delete` returns the pair of the delete marker (false when
the response carries no `DeleteMarker` field, the carried value otherwise)
and the `ResponseMetadata` mapping; on a service error it fails with the
generic `RemoteServiceError` wrapping the error payload. -/
theorem C7_delete_spec (self : Bucket) (sdk : SDK) (bucket key : String)
    (resp : DeleteObjectResponse) (e : ClientError) :
    (sdk.delete_object { bucket := bucket, key := key } = .ok resp →
      resp.responseMetadata.httpStatusCode = 204 →
      self.delete sdk bucket key =
        .ok (some (resp.deleteMarker.getD false, resp.responseMetadata))) ∧
    (sdk.delete_object { bucket := bucket, key := key } = .error e →
      self.delete sdk bucket key = .error (.remoteService e.response)) := by
  constructor
  · intro h hs
    unfold Bucket.delete
    rw [h]
    simp only [hs, if_pos]
    cases resp.deleteMarker <;> simp [Option.getD]
  · intro h
    unfold Bucket.delete
    rw [h]
    rfl

/-- `sdkOk`, with `delete_object` overridden to answer as a versioned bucket
does: status 204 with a `DeleteMarker: true` field. -/
def sdkDeleteMarker : SDK :=
  { sdkOk with delete_object := fun _ => .ok ⟨some true, meta204⟩ }

/-- Witness for C7 at concrete inputs: a non-versioned bucket (no
`DeleteMarker` field, marker `false`), a versioned bucket (`DeleteMarker:
true`, marker `true`), and a failing service. -/
theorem C7_delete_spec_witness :
    self0.delete sdkOk "bucket1" "a.yml" = .ok (some (false, meta204)) ∧
    self0.delete sdkDeleteMarker "bucket1" "a.yml"
      = .ok (some (true, meta204)) ∧
    self0.delete (errSDK err0) "bucket1" "a.yml"
      = .error (.remoteService err0.response) :=
  ⟨((C7_delete_spec self0 sdkOk "bucket1" "a.yml"
      { deleteMarker := none, responseMetadata := meta204 } err0).1 (by rfl)
        (by rfl)).trans (by decide),
   ((C7_delete_spec self0 sdkDeleteMarker "bucket1" "a.yml"
      { deleteMarker := some true, responseMetadata := meta204 } err0).1
        (by rfl) (by rfl)).trans (by decide),
   (C7_delete_spec self0 (errSDK err0) "bucket1" "a.yml"
      { deleteMarker := none, responseMetadata := meta204 } err0).2 (by rfl)⟩

/-- Claim C8: for any fixed service state on which `list_buckets` succeeds,
`list_buckets(names_only=true)` returns exactly the `Name` projection of the
descriptor sequence returned by `list_buckets(names_only=false)`, in the same
order. -/
theorem C8_list_buckets_names_projection (self : Bucket) (sdk : SDK)
    (ds : List BucketDescriptor)
    (h : self.list_buckets sdk false = .ok (.descriptors ds)) :
    self.list_buckets sdk true = .ok (.names (ds.map (fun b => b.name))) := by
  unfold Bucket.list_buckets at h ⊢
  cases hs : sdk.list_buckets () with
  | ok r =>
      rw [hs] at h
      have hb : r.buckets = ds := by
        simpa using h
      simp [hb]
  | error e =>
      rw [hs] at h
      simp [Bucket._client_error] at h

/-- Witness for C8 at a concrete two-bucket service state. -/
theorem C8_list_buckets_names_projection_witness :
    self0.list_buckets sdkOk true = .ok (.names ["bucket1", "bucket2"]) :=
  (C8_list_buckets_names_projection self0 sdkOk
      [{ name := "bucket1", creationDate := "2023-01-01" },
       { name := "bucket2", creationDate := "2023-02-02" }] rfl).trans rfl

/-- Claim C9: whenever `upload` is called with the `filesize` argument
supplied, the assignment block for the local `file_size` is skipped entirely,
so the progress-bar construction references an unassigned local and `upload`
fails with an `UnboundLocalError` before any transfer is attempted — for
every filesystem, in particular even when the source file exists. -/
theorem C9_upload_filesize_supplied_unbound (self : Bucket) (sdk : SDK)
    (fs : String → Option Nat) (bucket file_name : String)
    (key : Option String) (extra : Option (List (String × String)))
    (sz : Nat) :
    self.upload sdk fs bucket file_name key extra (some sz) =
      { result := .error (.unboundLocal "file_size"), sdk_call := none } :=
  rfl

/-- Claim C10: the `head_object` request `download` sends carries
`ExpectedBucketOwner` equal to the facade's AWS access key id, so on a
service that enforces the owner check, `download` fails with the generic
wrapped error whenever the access key id differs from the bucket-owning
account id. -/
theorem C10_download_expected_owner_is_access_key (self : Bucket) (sdk : SDK)
    (dirs : List String) (bucket key local_dir owner : String)
    (e : ClientError)
    (henf : ∀ r : HeadObjectRequest, r.expectedBucketOwner ≠ owner →
      sdk.head_object r = .error e)
    (hne : self.aws_access_key_id ≠ owner) :
    (self.download sdk dirs bucket key local_dir).head_call =
      some ⟨bucket, key, self.aws_access_key_id⟩ ∧
    (self.download sdk dirs bucket key local_dir).result =
      .error (.remoteService e.response) := by
  have h := henf ⟨bucket, key, self.aws_access_key_id⟩ hne
  unfold Bucket.download
  simp [h, Bucket._client_error]

/-- Witness for C10: the facade's access key `"AKIDEXAMPLE"` differs from the
owning account id `"123456789012"`, so on an enforcing service `download`
fails with the wrapped generic error, and the request carried the access key
as `ExpectedBucketOwner`. -/
theorem C10_download_expected_owner_is_access_key_witness :
    (self0.download (enforcingOwnerSDK sdkOk "123456789012" err0 headResp0)
        [] "bucket1" "a.yml" "/tmp/out").head_call =
      some ⟨"bucket1", "a.yml", "AKIDEXAMPLE"⟩ ∧
    (self0.download (enforcingOwnerSDK sdkOk "123456789012" err0 headResp0)
        [] "bucket1" "a.yml" "/tmp/out").result =
      .error (.remoteService err0.response) :=
  C10_download_expected_owner_is_access_key self0
    (enforcingOwnerSDK sdkOk "123456789012" err0 headResp0) [] "bucket1"
    "a.yml" "/tmp/out" "123456789012" err0
    (fun r hr => by simp [enforcingOwnerSDK, hr])
    (by decide)

end S3Hive
